import Mathlib

/-!
Verification of the fitbit2oscar repository against its specification.

Each Python function relevant to the claims is shallowly embedded as an
executable Lean definition: generators become lists, `datetime` values become
integer second counts or explicit field records, machine integers stay `Nat`
or `Int`, and fallible code returns an explicit result type.  Exceptions that
Python raises are modelled by `PyError` values.
-/

set_option autoImplicit false

namespace Fitbit2Oscar

/-- Python exceptions that the embedded functions can raise. -/
inductive PyError where
  | typeError (msg : String)
  | keyError (msg : String)
  | attributeError (msg : String)
  | runtimeError (msg : String)
  | indexError (msg : String)
  | valueError (msg : String)
  | argumentTypeError (msg : String)
  deriving DecidableEq, Repr

/-- Result of a Python call that can raise: either a value or an exception. -/
inductive PyResult (α : Type) where
  | ok (value : α)
  | err (e : PyError)
  deriving DecidableEq, Repr

/-- `_types.VitalsData`: a NamedTuple of a timestamp and an integer reading.
Timestamps are modelled as seconds on an absolute timeline, so `datetime`
comparison and subtraction become `Int` comparison and subtraction. -/
structure VitalsData where
  timestamp : Int
  data : Int
  deriving DecidableEq, Repr

/-!
### `parsers.sync_timestamps`

The two input generators become lists.  The inner `while` loop of the source
advances whichever stream is behind via `advance_spo2` / `advance_bpm`
(`next(gen, current)` keeps the current element when the generator is
exhausted) and returns from the whole function when the advance made no
progress, i.e. when the advanced pair equals the previous one.  `syncInner`
embeds that loop; its `fuel` argument only bounds the recursion and is always
instantiated with more than the total number of stream elements, which also
bounds the number of loop iterations (each iteration consumes one element).
-/

/-- The inner `while spo2.timestamp != bpm.timestamp` loop of
`sync_timestamps`.  Returns the aligned pair and the remaining streams, or
`none` when the source executes `return` (the lagging stream is exhausted or
yields a duplicate of the current element). -/
def syncInner : Nat → VitalsData → VitalsData → List VitalsData → List VitalsData →
    Option (VitalsData × VitalsData × List VitalsData × List VitalsData)
  | 0, _, _, _, _ => none
  | Nat.succ fuel, spo2, bpm, sRest, bRest =>
    if spo2.timestamp = bpm.timestamp then
      some (spo2, bpm, sRest, bRest)
    else if bpm.timestamp < spo2.timestamp then
      match bRest with
      | [] => none
      | b :: bTail => if b = bpm then none else syncInner fuel spo2 b sRest bTail
    else
      match sRest with
      | [] => none
      | s :: sTail => if s = spo2 then none else syncInner fuel s bpm sTail bRest

/-- The outer `while True` loop of `sync_timestamps`.  `countersSet` records
whether `spo2_count` / `bpm_count` were ever assigned (they are only assigned
inside the inner loop); when the first emitted pair required no inner-loop
iteration, the source raises `UnboundLocalError` right after the `yield`, so
the stream of emitted pairs ends there. -/
def syncAux : Nat → Bool → List VitalsData → List VitalsData →
    List (VitalsData × VitalsData)
  | 0, _, _, _ => []
  | Nat.succ _, _, [], _ => []
  | Nat.succ _, _, _ :: _, [] => []
  | Nat.succ fuel, countersSet, s0 :: sRest, b0 :: bRest =>
    match syncInner (fuel + 1) s0 b0 sRest bRest with
    | none => []
    | some (sp, bp, sRest2, bRest2) =>
      if countersSet then
        (sp, bp) :: syncAux fuel true sRest2 bRest2
      else if s0.timestamp = b0.timestamp then
        [(sp, bp)]
      else
        (sp, bp) :: syncAux fuel true sRest2 bRest2

/-- `parsers.sync_timestamps` on whole streams.  The fuel bounds both loops by
the total number of stream elements plus one, which the source never exceeds. -/
def sync_timestamps (spo2_data bpm_data : List VitalsData) :
    List (VitalsData × VitalsData) :=
  syncAux (spo2_data.length + bpm_data.length + 1) false spo2_data bpm_data

theorem syncInner_sound (fuel : Nat) :
    ∀ (spo2 bpm : VitalsData) (sRest bRest : List VitalsData)
      (sp bp : VitalsData) (sRest2 bRest2 : List VitalsData),
      syncInner fuel spo2 bpm sRest bRest = some (sp, bp, sRest2, bRest2) →
      sp.timestamp = bp.timestamp ∧ sp ∈ spo2 :: sRest ∧ bp ∈ bpm :: bRest ∧
        sRest2 <:+ sRest ∧ bRest2 <:+ bRest := by
  induction fuel with
  | zero => intro _ _ _ _ _ _ _ _ h; simp [syncInner] at h
  | succ fuel ih =>
    intro spo2 bpm sRest bRest sp bp sRest2 bRest2 h
    by_cases hts : spo2.timestamp = bpm.timestamp
    · simp only [syncInner, if_pos hts, Option.some.injEq, Prod.mk.injEq] at h
      obtain ⟨h1, h2, h3, h4⟩ := h
      subst h1; subst h2; subst h3; subst h4
      exact ⟨hts, List.mem_cons_self _ _, List.mem_cons_self _ _,
        List.suffix_refl _, List.suffix_refl _⟩
    · by_cases hlt : bpm.timestamp < spo2.timestamp
      · rcases bRest with _ | ⟨b, bTail⟩
        · simp [syncInner, hts, hlt] at h
        · by_cases hb : b = bpm
          · simp [syncInner, hts, hlt, hb] at h
          · simp only [syncInner, if_neg hts, if_pos hlt, if_neg hb] at h
            obtain ⟨heq, hsp, hbp, hsfx, hbfx⟩ := ih spo2 b sRest bTail sp bp sRest2 bRest2 h
            refine ⟨heq, hsp, ?_, hsfx, hbfx.trans (List.suffix_cons b bTail)⟩
            rcases List.mem_cons.mp hbp with hbp | hbp
            · exact List.mem_cons_of_mem _ (hbp ▸ List.mem_cons_self _ _)
            · exact List.mem_cons_of_mem _ (List.mem_cons_of_mem _ hbp)
      · rcases sRest with _ | ⟨s, sTail⟩
        · simp [syncInner, hts, hlt] at h
        · by_cases hs : s = spo2
          · simp [syncInner, hts, hlt, hs] at h
          · simp only [syncInner, if_neg hts, if_neg hlt, if_neg hs] at h
            obtain ⟨heq, hsp, hbp, hsfx, hbfx⟩ := ih s bpm sTail bRest sp bp sRest2 bRest2 h
            refine ⟨heq, ?_, hbp, hsfx.trans (List.suffix_cons s sTail), hbfx⟩
            rcases List.mem_cons.mp hsp with hsp | hsp
            · exact List.mem_cons_of_mem _ (hsp ▸ List.mem_cons_self _ _)
            · exact List.mem_cons_of_mem _ (List.mem_cons_of_mem _ hsp)

theorem syncAux_sound (fuel : Nat) :
    ∀ (countersSet : Bool) (s b : List VitalsData) (pr : VitalsData × VitalsData),
      pr ∈ syncAux fuel countersSet s b →
      pr.1.timestamp = pr.2.timestamp ∧ pr.1 ∈ s ∧ pr.2 ∈ b := by
  induction fuel with
  | zero => intro _ _ _ _ h; simp [syncAux] at h
  | succ fuel ih =>
    intro countersSet s b pr h
    rcases s with _ | ⟨s0, sRest⟩
    · simp [syncAux] at h
    rcases b with _ | ⟨b0, bRest⟩
    · simp [syncAux] at h
    cases hinner : syncInner (fuel + 1) s0 b0 sRest bRest with
    | none => simp [syncAux, hinner] at h
    | some v =>
      obtain ⟨sp, bp, sRest2, bRest2⟩ := v
      obtain ⟨heq, hsp, hbp, hsfx, hbfx⟩ :=
        syncInner_sound (fuel + 1) s0 b0 sRest bRest sp bp sRest2 bRest2 hinner
      have tailSound : pr ∈ syncAux fuel true sRest2 bRest2 →
          pr.1.timestamp = pr.2.timestamp ∧ pr.1 ∈ s0 :: sRest ∧ pr.2 ∈ b0 :: bRest := by
        intro hmem
        obtain ⟨e1, e2, e3⟩ := ih true sRest2 bRest2 pr hmem
        exact ⟨e1, List.mem_cons_of_mem _ (hsfx.subset e2),
          List.mem_cons_of_mem _ (hbfx.subset e3)⟩
      have headSound : pr = (sp, bp) →
          pr.1.timestamp = pr.2.timestamp ∧ pr.1 ∈ s0 :: sRest ∧ pr.2 ∈ b0 :: bRest := by
        intro hpr; subst hpr; exact ⟨heq, hsp, hbp⟩
      cases countersSet with
      | true =>
        have hx : syncAux (fuel + 1) true (s0 :: sRest) (b0 :: bRest) =
            (sp, bp) :: syncAux fuel true sRest2 bRest2 := by
          simp [syncAux, hinner]
        rw [hx] at h
        rcases List.mem_cons.mp h with hpr | hmem
        · exact headSound hpr
        · exact tailSound hmem
      | false =>
        by_cases hts : s0.timestamp = b0.timestamp
        · have hx : syncAux (fuel + 1) false (s0 :: sRest) (b0 :: bRest) = [(sp, bp)] := by
            simp [syncAux, hinner, hts]
          rw [hx] at h
          rcases List.mem_cons.mp h with hpr | hmem
          · exact headSound hpr
          · simp at hmem
        · have hx : syncAux (fuel + 1) false (s0 :: sRest) (b0 :: bRest) =
              (sp, bp) :: syncAux fuel true sRest2 bRest2 := by
            simp [syncAux, hinner, hts]
          rw [hx] at h
          rcases List.mem_cons.mp h with hpr | hmem
          · exact headSound hpr
          · exact tailSound hmem

/-- C1: every pair emitted by `sync_timestamps` carries one element of each
input stream and the two elements have exactly equal timestamps; hence a pair
exists only for timestamps present in both streams and no tolerance window or
nearest-neighbour pairing occurs. -/
theorem sync_timestamps_aligned_pairs (spo2_data bpm_data : List VitalsData)
    (_hs : List.Chain' (fun x y => x.timestamp ≤ y.timestamp) spo2_data)
    (_hb : List.Chain' (fun x y => x.timestamp ≤ y.timestamp) bpm_data)
    (pr : VitalsData × VitalsData)
    (hmem : pr ∈ sync_timestamps spo2_data bpm_data) :
    pr.1.timestamp = pr.2.timestamp ∧ pr.1 ∈ spo2_data ∧ pr.2 ∈ bpm_data :=
  syncAux_sound (spo2_data.length + bpm_data.length + 1) false spo2_data bpm_data pr hmem

theorem sync_timestamps_aligned_pairs_witness :
    List.Chain' (fun x y : VitalsData => x.timestamp ≤ y.timestamp)
        [VitalsData.mk 0 95, VitalsData.mk 60 96] ∧
      List.Chain' (fun x y : VitalsData => x.timestamp ≤ y.timestamp)
        [VitalsData.mk 60 61] ∧
      (VitalsData.mk 60 96, VitalsData.mk 60 61) ∈
        sync_timestamps [VitalsData.mk 0 95, VitalsData.mk 60 96] [VitalsData.mk 60 61] ∧
      ((VitalsData.mk 60 96, VitalsData.mk 60 61).1.timestamp =
          (VitalsData.mk 60 96, VitalsData.mk 60 61).2.timestamp ∧
        (VitalsData.mk 60 96, VitalsData.mk 60 61).1 ∈
          [VitalsData.mk 0 95, VitalsData.mk 60 96] ∧
        (VitalsData.mk 60 96, VitalsData.mk 60 61).2 ∈ [VitalsData.mk 60 61]) :=
  ⟨by simp, by simp, by decide,
    sync_timestamps_aligned_pairs _ _ (by simp) (by simp) _ (by decide)⟩

/-!
### `parsers.parse_sleep_health_data`

The `for sp02, bpm in sync_timestamps(...)` loop, embedded over an arbitrary
list of already-aligned pairs.  The source appends the current pair to
`session` first and only then compares the gap against the split threshold,
yields the session (including the gap-crossing pair) when the gap is larger,
and never yields the session still in progress when the loop ends.  Each
yielded value is modelled as a snapshot of the `session` list at the moment
of the yield; the source actually yields the one mutable list object and then
calls `session.clear()` on it, which additionally empties what the consumer
already received.  The sibling `parse.parse_sleep_health_data` runs the same
loop body over the sorted intersection of two timestamp dictionaries and
likewise never flushes the trailing session.
-/

/-- One `SleepHealthData` triple `(timestamp, spo2, bpm)`. -/
abbrev SleepHealthData : Type := Int × Int × Int

/-- Loop body of `parse_sleep_health_data`: `session_split` is in minutes and
the gap test is `(sp02.timestamp - prev_timestamp) > timedelta(minutes=session_split)`,
i.e. strict comparison against `session_split * 60` seconds. -/
def parseLoop (session_split : Int) :
    List (VitalsData × VitalsData) → List SleepHealthData → Option Int →
      List (List SleepHealthData)
  | [], _, _ => []
  | (sp, bp) :: rest, session, prev_timestamp =>
    let session2 := session ++ [(sp.timestamp, sp.data, bp.data)]
    match prev_timestamp with
    | some prev =>
      if session_split * 60 < sp.timestamp - prev then
        session2 :: parseLoop session_split rest [] (some sp.timestamp)
      else
        parseLoop session_split rest session2 (some sp.timestamp)
    | none => parseLoop session_split rest session2 (some sp.timestamp)

/-- `parsers.parse_sleep_health_data` composed with the synchronizer; the
default split threshold in the source is 15 minutes. -/
def parse_sleep_health_data (spo2_data bpm_data : List VitalsData)
    (session_split : Int) : List (List SleepHealthData) :=
  parseLoop session_split (sync_timestamps spo2_data bpm_data) [] none

/-- The segmentation behaviour the specification describes: close the current
session before the gap-crossing pair, start the new session with that pair,
and flush the final in-progress session at stream exhaustion. -/
def parseLoopPerSpec (session_split : Int) :
    List (VitalsData × VitalsData) → List SleepHealthData → Option Int →
      List (List SleepHealthData)
  | [], session, _ => if session = [] then [] else [session]
  | (sp, bp) :: rest, session, prev_timestamp =>
    let triple : SleepHealthData := (sp.timestamp, sp.data, bp.data)
    match prev_timestamp with
    | some prev =>
      if session_split * 60 < sp.timestamp - prev then
        (if session = [] then [] else [session]) ++
          parseLoopPerSpec session_split rest [triple] (some sp.timestamp)
      else
        parseLoopPerSpec session_split rest (session ++ [triple]) (some sp.timestamp)
    | none => parseLoopPerSpec session_split rest (session ++ [triple]) (some sp.timestamp)

/-- C2 (code bug): two aligned pairs 20 minutes apart with the default
15-minute threshold.  The source yields one two-element session, with the
gap-crossing pair appended to the old session; the segmentation described by
the specification yields two one-element sessions.  Moreover a stream whose
pairs never exceed the gap (here a single pair) produces no session at all,
because the final in-progress session is never yielded. -/
theorem parse_sleep_health_data_scenarioD_eval :
    parseLoop 15
        [(VitalsData.mk 0 95, VitalsData.mk 0 60),
          (VitalsData.mk 1200 96, VitalsData.mk 1200 61)] [] none =
      [[((0 : Int), (95 : Int), (60 : Int)), ((1200 : Int), (96 : Int), (61 : Int))]] ∧
    parseLoopPerSpec 15
        [(VitalsData.mk 0 95, VitalsData.mk 0 60),
          (VitalsData.mk 1200 96, VitalsData.mk 1200 61)] [] none =
      [[((0 : Int), (95 : Int), (60 : Int))], [((1200 : Int), (96 : Int), (61 : Int))]] ∧
    parseLoop 15
        [(VitalsData.mk 0 95, VitalsData.mk 0 60),
          (VitalsData.mk 1200 96, VitalsData.mk 1200 61)] [] none ≠
      parseLoopPerSpec 15
        [(VitalsData.mk 0 95, VitalsData.mk 0 60),
          (VitalsData.mk 1200 96, VitalsData.mk 1200 61)] [] none ∧
    parseLoop 15 [(VitalsData.mk 0 95, VitalsData.mk 0 60)] [] none = [] ∧
    parseLoopPerSpec 15 [(VitalsData.mk 0 95, VitalsData.mk 0 60)] [] none =
      [[((0 : Int), (95 : Int), (60 : Int))]] := by
  refine ⟨by decide, by decide, by decide, by decide, by decide⟩

/-!
### `helpers.chunk_viatom_data` and `process_data.chunk_viatom_data`

`helpers.chunk_viatom_data` is the list comprehension
`[session[i : i + chunk_size] for session in viatom_data
  for i in range(0, len(session), chunk_size)]`.
`process_data.chunk_viatom_data` yields the same slices session by session,
but each iteration first evaluates the log message
`f"... {len(session // chunk_size)} ..."`, and `session // chunk_size`
floor-divides a list by an integer, a `TypeError`.
-/

/-- Python `range(start, stop, step)` as a list.  Python raises `ValueError`
for `step == 0`; that case is modelled as the empty list and never used (the
only call site passes `chunk_size = 4095`). -/
def pyRange (start stop step : Nat) : List Nat :=
  if _h : 0 < step ∧ start < stop then start :: pyRange (start + step) stop step
  else []
termination_by stop - start
decreasing_by omega

theorem pyRange_pos {start stop step : Nat} (h : 0 < step ∧ start < stop) :
    pyRange start stop step = start :: pyRange (start + step) stop step := by
  rw [pyRange, dif_pos h]

theorem pyRange_neg {start stop step : Nat} (h : ¬(0 < step ∧ start < stop)) :
    pyRange start stop step = [] := by
  rw [pyRange, dif_neg h]

/-- `helpers.chunk_viatom_data`: the slice `session[i : i + chunk_size]` is
`(session.drop i).take chunk_size`. -/
def chunk_viatom_data {α : Type} (viatom_data : List (List α)) (chunk_size : Nat) :
    List (List α) :=
  (viatom_data.map (fun session =>
    (pyRange 0 session.length chunk_size).map
      (fun i => (session.drop i).take chunk_size))).flatten

/-- `process_data.chunk_viatom_data`: on the first session the interpolated
log message raises `TypeError` before anything is yielded. -/
def chunk_viatom_data_gen {α : Type} (viatom_data : List (List α))
    (chunk_size : Nat) : PyResult (List (List α)) :=
  match viatom_data, chunk_size with
  | [], _ => .ok []
  | _ :: _, _ =>
    .err (.typeError "unsupported operand types for //: list and int")

theorem pyRange_add (step d start stop : Nat) :
    pyRange (start + d) (stop + d) step =
      (pyRange start stop step).map (fun i => i + d) := by
  by_cases h : 0 < step ∧ start < stop
  · have h2 : 0 < step ∧ start + d < stop + d := ⟨h.1, by omega⟩
    rw [pyRange_pos h2, pyRange_pos h]
    have hrec := pyRange_add step d (start + step) stop
    simp only [List.map_cons]
    rw [show start + step + d = start + d + step by omega] at hrec
    rw [hrec]
  · have h2 : ¬(0 < step ∧ start + d < stop + d) := by
      intro hc; exact h ⟨hc.1, by omega⟩
    rw [pyRange_neg h2, pyRange_neg h]
    rfl
termination_by stop - start
decreasing_by omega

/-- Concatenating the slices taken at `range(0, len(l), cs)` rebuilds `l`. -/
theorem chunk_session_join {α : Type} (cs : Nat) (hcs : 0 < cs) :
    ∀ (n : Nat) (l : List α), l.length = n →
      ((pyRange 0 l.length cs).map (fun i => (l.drop i).take cs)).flatten = l := by
  intro n
  induction n using Nat.strong_induction_on with
  | _ n ih =>
    intro l hl
    rcases l with _ | ⟨a, tl⟩
    · rw [pyRange_neg (by simp)]
      rfl
    · have hpos : 0 < (a :: tl).length := by simp
      rw [pyRange_pos ⟨hcs, hpos⟩]
      simp only [List.map_cons, List.flatten_cons, List.drop_zero, Nat.zero_add]
      by_cases hle : (a :: tl).length ≤ cs
      · have hr : pyRange cs (a :: tl).length cs = [] := by
          rw [pyRange_neg]
          intro hc; omega
        rw [hr]
        simp [List.take_of_length_le hle]
      · have hlt : cs < (a :: tl).length := by omega
        have hshift : pyRange cs (a :: tl).length cs =
            (pyRange 0 ((a :: tl).length - cs) cs).map (fun i => i + cs) := by
          have := pyRange_add cs cs 0 ((a :: tl).length - cs)
          rw [Nat.zero_add] at this
          rw [show (a :: tl).length - cs + cs = (a :: tl).length by omega] at this
          exact this
        rw [hshift, List.map_map]
        have hmapeq :
            ((pyRange 0 ((a :: tl).length - cs) cs).map
              ((fun i => ((a :: tl).drop i).take cs) ∘ fun i => i + cs)) =
            ((pyRange 0 ((a :: tl).length - cs) cs).map
              (fun i => (((a :: tl).drop cs).drop i).take cs)) := by
          refine List.map_congr_left ?_
          intro i _
          simp only [Function.comp]
          rw [List.drop_drop]
          rw [Nat.add_comm]
        rw [hmapeq]
        have hlen2 : ((a :: tl).drop cs).length = (a :: tl).length - cs := by
          simp
        have ihres := ih ((a :: tl).length - cs) (by omega) ((a :: tl).drop cs) hlen2
        rw [hlen2] at ihres
        rw [ihres]
        exact List.take_append_drop cs (a :: tl)

/-- Every chunk produced by `helpers.chunk_viatom_data` is a slice of length
at most `chunk_size`. -/
theorem chunk_viatom_data_length_le {α : Type} (viatom_data : List (List α))
    (chunk_size : Nat) (c : List α) (hc : c ∈ chunk_viatom_data viatom_data chunk_size) :
    c.length ≤ chunk_size := by
  unfold chunk_viatom_data at hc
  rw [List.mem_flatten] at hc
  obtain ⟨inner, hinner, hcinner⟩ := hc
  rw [List.mem_map] at hinner
  obtain ⟨session, _, hs⟩ := hinner
  subst hs
  rw [List.mem_map] at hcinner
  obtain ⟨i, _, hi⟩ := hcinner
  subst hi
  simp

/-- `helpers.chunk_viatom_data` is exact chunking: per session, the chunks
concatenate back to the session, in order. -/
theorem chunk_viatom_data_join {α : Type} (viatom_data : List (List α))
    (chunk_size : Nat) (hcs : 0 < chunk_size) :
    (chunk_viatom_data viatom_data chunk_size).flatten = viatom_data.flatten := by
  unfold chunk_viatom_data
  induction viatom_data with
  | nil => rfl
  | cons session rest ih =>
    simp only [List.map_cons, List.flatten_cons, List.flatten_append]
    rw [ih, chunk_session_join chunk_size hcs session.length session rfl]

/-- C3 (code bug): on a one-record session the list version returns the
correct single chunk, while the generator version in `process_data.py`
raises `TypeError` from its log line before yielding anything. -/
theorem chunk_viatom_data_generator_crash_eval :
    chunk_viatom_data [[((0 : Int), (95 : Int), (60 : Int))]] 4095 =
      [[((0 : Int), (95 : Int), (60 : Int))]] ∧
    chunk_viatom_data_gen [[((0 : Int), (95 : Int), (60 : Int))]] 4095 =
      .err (.typeError "unsupported operand types for //: list and int") := by
  constructor
  · unfold chunk_viatom_data
    simp only [List.map_cons, List.map_nil]
    rw [pyRange_pos (by simp)]
    rw [pyRange_neg (by simp)]
    rfl
  · rfl

/-!
### `parsers.generate_hypnogram`

The source builds `[levels[stage["level"]]] * (stage["seconds"] // 30)` for
every known-stage record and passes the resulting *generator of lists* to
`sleep_stages.extend(...)`: each yielded list therefore becomes one element of
`sleep_stages`, so the function returns a nested list whose length is the
number of known-stage records, not a flat list of stage tokens.  (The same
body appears in `parse.generate_hypnogram` and `extract.generate_hypnogram`;
the caller then runs `",".join(...)` over it, which raises `TypeError` on the
list elements.)
-/

/-- One entry of `SleepData`: a sleep stage and its duration in seconds. -/
structure SleepStageRecord where
  level : String
  seconds : Nat
  deriving DecidableEq, Repr

/-- The `levels` mapping of `generate_hypnogram`. -/
def stageLabel (level : String) : Option String :=
  if level = "wake" then some "WAKE"
  else if level = "rem" then some "REM"
  else if level = "light" then some "Light"
  else if level = "deep" then some "Deep"
  else none

/-- `parsers.generate_hypnogram` as written: `extend` consumes a generator of
lists, so each known-stage record contributes one *list* element. -/
def generate_hypnogram (data : List SleepStageRecord) : List (List String) :=
  data.filterMap (fun stage =>
    (stageLabel stage.level).map (fun label => List.replicate (stage.seconds / 30) label))

/-- The flat hypnogram the specification describes: each known-stage record
contributes its canonical label `seconds / 30` times, in record order. -/
def generate_hypnogram_per_spec (data : List SleepStageRecord) : List String :=
  (data.filterMap (fun stage =>
    (stageLabel stage.level).map (fun label => List.replicate (stage.seconds / 30) label))).flatten

/-- The length of the nested result counts known-stage records, not epochs. -/
theorem generate_hypnogram_length (data : List SleepStageRecord) :
    (generate_hypnogram data).length =
      (data.filter (fun stage => (stageLabel stage.level).isSome)).length := by
  unfold generate_hypnogram
  induction data with
  | nil => rfl
  | cons stage rest ih =>
    cases h : stageLabel stage.level with
    | none => simp [List.filterMap_cons, List.filter_cons, h, ih]
    | some label => simp [List.filterMap_cons, List.filter_cons, h, ih]

/-- C4 (code bug): a single 95-second deep record.  The code returns the
nested list `[["Deep", "Deep", "Deep"]]` of length 1; the specification's
hypnogram is the flat `["Deep", "Deep", "Deep"]` of length `95 / 30 = 3`,
so the stated length law fails on the code. -/
theorem generate_hypnogram_nested_eval :
    generate_hypnogram [SleepStageRecord.mk "deep" 95] = [["Deep", "Deep", "Deep"]] ∧
    (generate_hypnogram [SleepStageRecord.mk "deep" 95]).length = 1 ∧
    generate_hypnogram_per_spec [SleepStageRecord.mk "deep" 95] = ["Deep", "Deep", "Deep"] ∧
    (generate_hypnogram_per_spec [SleepStageRecord.mk "deep" 95]).length = 95 / 30 ∧
    (generate_hypnogram [SleepStageRecord.mk "deep" 95]).length ≠ 95 / 30 := by
  refine ⟨by decide, by decide, by decide, by decide, by decide⟩

/-!
### `plugins.health_sync.extract.process_sleep_data`

CSV rows become records of date string, duration in seconds and stage name.
The stage tallies mirror the `stage_data` dictionary updates, and
`efficiency = int(stage_data["wake"]["time"] / duration * 100)`: Python's
float division followed by `int` truncation, which on the non-negative exact
values involved equals truncated integer division.  Note the formula divides
the *wake* time by the duration, so it computes the percentage of time spent
awake rather than the sleep efficiency of the specification.
-/

/-- One CSV row of Health Sync sleep data. -/
structure HealthSyncSleepRow where
  date : String
  durationSeconds : Int
  stage : String
  deriving DecidableEq, Repr

/-- One element of the `data` list built by `process_sleep_data`. -/
structure HypnoEntry where
  dateTime : String
  level : String
  seconds : Int
  deriving DecidableEq, Repr

/-- `stage_data[stage]["count"] += 1; stage_data[stage]["time"] += seconds`
accumulated over all rows of a given stage. -/
def tallyStage (rows : List HealthSyncSleepRow) (stage : String) : Int × Int :=
  rows.foldl
    (fun acc row =>
      if row.stage = stage then (acc.1 + 1, acc.2 + row.durationSeconds) else acc)
    (0, 0)

/-- The summary entry `{"count": ..., "minutes": time // 60}` for one stage. -/
def summaryEntry (rows : List HealthSyncSleepRow) (stage : String) : Int × Int :=
  ((tallyStage rows stage).1, Int.ediv (tallyStage rows stage).2 60)

/-- `process_sleep_data`: returns the `data` list, the `summary` entries in
dictionary order `[wake, light, deep, rem]`, and the computed efficiency.
`int(x)` truncates towards zero, hence `Int.tdiv`; division by a zero
duration raises `ZeroDivisionError`. -/
def process_sleep_data (rows : List HealthSyncSleepRow) (duration : Int) :
    PyResult (List HypnoEntry × List (String × Int × Int) × Int) :=
  if duration = 0 then .err (.valueError "division by zero")
  else
    .ok
      (rows.map (fun row => HypnoEntry.mk row.date row.stage row.durationSeconds),
        [("wake", summaryEntry rows "wake"), ("light", summaryEntry rows "light"),
          ("deep", summaryEntry rows "deep"), ("rem", summaryEntry rows "rem")],
        Int.tdiv (100 * (tallyStage rows "wake").2) duration)

/-- The sleep efficiency of the specification:
`100 * (1 - wake_seconds / duration_seconds)` rounded down. -/
def sleep_efficiency_per_spec (wakeSeconds durationSeconds : Int) : Int :=
  Int.fdiv (100 * (durationSeconds - wakeSeconds)) durationSeconds

/-- C5 (code bug): scenario C, `duration_seconds = 28800` with 1440 seconds of
wake.  The code computes `int(1440 / 28800 * 100) = 5`; the specification's
`floor(100 * (1 - 1440/28800)) = 95`. -/
theorem process_sleep_data_efficiency_eval :
    process_sleep_data
        [HealthSyncSleepRow.mk "2024-01-01 23:00:00" 1440 "wake",
          HealthSyncSleepRow.mk "2024-01-01 23:24:00" 27360 "deep"] 28800 =
      .ok
        ([HypnoEntry.mk "2024-01-01 23:00:00" "wake" 1440,
            HypnoEntry.mk "2024-01-01 23:24:00" "deep" 27360],
          [("wake", (1, 24)), ("light", (0, 0)), ("deep", (1, 456)), ("rem", (0, 0))],
          5) ∧
    sleep_efficiency_per_spec 1440 28800 = 95 ∧
    (5 : Int) ≠ 95 := by
  refine ⟨by decide, by decide, by decide⟩

/-!
### `time_helpers.convert_timestamp`

A Python `datetime` is modelled as a wall-clock second count together with an
optional UTC offset in minutes (`none` = naive).  The `strptime` step is
abstracted: the embedding receives the parsed wall-clock value of the
Z-stripped string as `wall` and whether the raw string ends in `"Z"` as
`hasZ`.  `replace(tzinfo=utc).astimezone(tz)` turns a wall-clock reading in
UTC into the same instant read in `tz`, i.e. adds the offset;
`replace(tzinfo=tz)` attaches the offset without changing the reading; and
`replace(second=0)` zeroes the seconds field, i.e. subtracts `wall % 60`.
The source computes `local_dt` but, when `use_seconds` is false, returns
`dt.replace(second=0)` built from the *naive, unconverted* `dt`.
-/

/-- A Python `datetime`: wall-clock seconds plus optional UTC offset. -/
structure PyDateTime where
  wall : Int
  tzOffsetMinutes : Option Int
  deriving DecidableEq, Repr

/-- `time_helpers.convert_timestamp` as written. -/
def convert_timestamp (wall : Int) (hasZ : Bool) (tzOffsetMinutes : Int)
    (use_seconds : Bool) : PyDateTime :=
  let local_dt : PyDateTime :=
    if hasZ then PyDateTime.mk (wall + 60 * tzOffsetMinutes) (some tzOffsetMinutes)
    else PyDateTime.mk wall (some tzOffsetMinutes)
  if use_seconds then local_dt
  else PyDateTime.mk (wall - wall % 60) none

/-- The behaviour the specification describes: the zone-aware `local_dt`,
with its seconds field truncated to zero when `use_seconds` is false. -/
def convert_timestamp_per_spec (wall : Int) (hasZ : Bool) (tzOffsetMinutes : Int)
    (use_seconds : Bool) : PyDateTime :=
  let local_dt : PyDateTime :=
    if hasZ then PyDateTime.mk (wall + 60 * tzOffsetMinutes) (some tzOffsetMinutes)
    else PyDateTime.mk wall (some tzOffsetMinutes)
  if use_seconds then local_dt
  else PyDateTime.mk (local_dt.wall - local_dt.wall % 60) local_dt.tzOffsetMinutes

/-- C6 (code bug): with `use_seconds = True` the code matches the
specification for every input, but with `use_seconds = False` it returns the
naive unconverted parse.  Concretely, for `"2023-01-02T03:04:05Z"` (wall
`11045` seconds into the day) and a `+01:00` zone, the code yields the naive
`03:04:00` while the specification requires the aware `04:04:00+01:00`. -/
theorem convert_timestamp_use_seconds_naive_eval :
    (∀ (wall : Int) (hasZ : Bool) (tz : Int),
      convert_timestamp wall hasZ tz true = convert_timestamp_per_spec wall hasZ tz true) ∧
    convert_timestamp 11045 true 60 false = PyDateTime.mk 11040 none ∧
    convert_timestamp_per_spec 11045 true 60 false = PyDateTime.mk 14640 (some 60) ∧
    convert_timestamp 11045 true 60 false ≠ convert_timestamp_per_spec 11045 true 60 false := by
  refine ⟨fun wall hasZ tz => rfl, by decide, by decide, by decide⟩

/-!
### `write_file.prepare_viatom_binary_data` and `write_file.create_viatom_file`

`struct.pack` with formats `<B`, `<H`, `<I` produces 1, 2 and 4 little-endian
bytes and raises `struct.error` when the value is out of range; the pack
helpers below return `none` in that case.  A record is the tuple
`(datetime, spo2, bpm)`; `data[0][0]` is the first record's datetime, whose
calendar fields are kept explicitly.  On an empty list `data[0]` raises
`IndexError`, modelled as `none`.

`create_viatom_file` iterates over the *list of chunks*, but its filename
expression reads `data[0][0]` — the first record of the first chunk, a tuple —
and calls `.strftime(...)` on it, which raises `AttributeError`; with an
empty first chunk `data[0][0]` raises `IndexError` instead, and an oversized
first chunk raises `RuntimeError` first.  The loop therefore always stops in
its first iteration and no file is ever written.
-/

/-- Calendar fields of a `datetime` as consumed by `struct.pack`. -/
structure DateTimeFields where
  year : Nat
  month : Nat
  day : Nat
  hour : Nat
  minute : Nat
  second : Nat
  deriving DecidableEq, Repr

/-- One `(datetime, spo2, bpm)` tuple. -/
structure ViatomRecord where
  time : DateTimeFields
  spo2 : Nat
  bpm : Nat
  deriving DecidableEq, Repr

/-- `struct.pack("<B", v)`. -/
def packU8 (v : Nat) : Option (List Nat) :=
  if v < 256 then some [v] else none

/-- `struct.pack("<H", v)`. -/
def packU16LE (v : Nat) : Option (List Nat) :=
  if v < 65536 then some [v % 256, v / 256] else none

/-- `struct.pack("<I", v)`. -/
def packU32LE (v : Nat) : Option (List Nat) :=
  if v < 4294967296 then
    some [v % 256, v / 256 % 256, v / 65536 % 256, v / 16777216 % 256]
  else none

/-- The per-record loop body: `pack("<B", record[1])`, `pack("<B", record[2])`
and three zero padding bytes. -/
def recordBytes (r : ViatomRecord) : Option (List Nat) :=
  match packU8 r.spo2, packU8 r.bpm with
  | some s, some b => some (s ++ b ++ [0, 0, 0])
  | _, _ => none

/-- The record loop of `prepare_viatom_binary_data`. -/
def recordsBytes : List ViatomRecord → Option (List Nat)
  | [] => some []
  | r :: rest =>
    match recordBytes r, recordsBytes rest with
    | some hd, some tl => some (hd ++ tl)
    | _, _ => none

/-- `write_file.prepare_viatom_binary_data`. -/
def prepare_viatom_binary_data (data : List ViatomRecord) : Option (List Nat) :=
  match data with
  | [] => none
  | r0 :: _ =>
    let t := r0.time
    match packU16LE t.year, packU8 t.month, packU8 t.day, packU8 t.hour,
        packU8 t.minute, packU8 t.second,
        packU32LE (data.length * 5 + 40), packU16LE (data.length * 4),
        recordsBytes data with
    | some yearB, some moB, some daB, some hoB, some miB, some seB,
        some sizeB, some durB, some recsB =>
      some ([5, 0] ++ yearB ++ moB ++ daB ++ hoB ++ miB ++ seB ++
        sizeB ++ durB ++ List.replicate 25 0 ++ recsB)
    | _, _, _, _, _, _, _, _, _ => none

/-- The binary layout in the specification's words, with the record size
corrected to five bytes: 2-byte magic `05 00`, little-endian 16-bit year,
month/day/hour/minute/second bytes, little-endian 32-bit file size
`5 * n + 40`, little-endian 16-bit duration `4 * n`, 25 zero bytes, then one
`[SpO2][BPM][0, 0, 0]` record per sample pair. -/
def viatom_file_per_spec (t : DateTimeFields) (data : List ViatomRecord) : List Nat :=
  5 :: 0 :: (t.year % 256) :: (t.year / 256) ::
    t.month :: t.day :: t.hour :: t.minute :: t.second ::
    ((data.length * 5 + 40) % 256) :: ((data.length * 5 + 40) / 256 % 256) ::
    ((data.length * 5 + 40) / 65536 % 256) :: ((data.length * 5 + 40) / 16777216 % 256) ::
    ((data.length * 4) % 256) :: ((data.length * 4) / 256) ::
    (List.replicate 25 0 ++ (data.map (fun r => [r.spo2, r.bpm, 0, 0, 0])).flatten)

/-- `write_file.create_viatom_file`: the first loop iteration always raises. -/
def create_viatom_file (data : List (List ViatomRecord)) :
    PyResult (List (String × List Nat)) :=
  match data with
  | [] => .ok []
  | datum :: _ =>
    if 4095 < datum.length then
      .err (.runtimeError "Data chunk too long")
    else
      match datum with
      | [] => .err (.indexError "list index out of range")
      | _ :: _ => .err (.attributeError "tuple object has no attribute strftime")

theorem recordsBytes_spec (data : List ViatomRecord)
    (h : ∀ r ∈ data, r.spo2 < 256 ∧ r.bpm < 256) :
    recordsBytes data = some ((data.map (fun r => [r.spo2, r.bpm, 0, 0, 0])).flatten) := by
  induction data with
  | nil => rfl
  | cons r rest ih =>
    have hr := h r (List.mem_cons_self r rest)
    have hrest := ih (fun x hx => h x (List.mem_cons_of_mem r hx))
    simp only [recordsBytes, recordBytes, packU8, if_pos hr.1, if_pos hr.2, hrest]
    simp

theorem flatten_record_map_length (data : List ViatomRecord) :
    ((data.map (fun r => [r.spo2, r.bpm, 0, 0, 0])).flatten).length = 5 * data.length := by
  induction data with
  | nil => rfl
  | cons r rest ih => simp [ih]; ring

/-- Shared helper: with all packed values in range, the produced byte string
is exactly the (five-byte-record) layout. -/
theorem prepare_viatom_binary_data_spec (r0 : ViatomRecord) (rest : List ViatomRecord)
    (hyear : r0.time.year < 65536) (hmo : r0.time.month < 256)
    (hda : r0.time.day < 256) (hho : r0.time.hour < 256)
    (hmi : r0.time.minute < 256) (hse : r0.time.second < 256)
    (hvals : ∀ r ∈ r0 :: rest, r.spo2 < 256 ∧ r.bpm < 256)
    (hsize : (r0 :: rest).length * 5 + 40 < 4294967296)
    (hdur : (r0 :: rest).length * 4 < 65536) :
    prepare_viatom_binary_data (r0 :: rest) =
      some (viatom_file_per_spec r0.time (r0 :: rest)) := by
  have hrecs := recordsBytes_spec (r0 :: rest) hvals
  simp only [prepare_viatom_binary_data, packU16LE, packU8, packU32LE,
    if_pos hyear, if_pos hmo, if_pos hda, if_pos hho, if_pos hmi, if_pos hse,
    if_pos hsize, if_pos hdur, hrecs]
  simp [viatom_file_per_spec, List.length_cons]

theorem viatom_file_per_spec_length (t : DateTimeFields) (data : List ViatomRecord) :
    (viatom_file_per_spec t data).length = 40 + 5 * data.length := by
  simp only [viatom_file_per_spec, List.length_cons, List.length_append,
    List.length_replicate, flatten_record_map_length]
  ring

/-- C7 counterexample: on a single-record chunk the produced byte string has
`40 + 5 * 1 = 45` bytes, not the `40 + 8 * 1 = 48` the claimed 8-byte records
would give; and `create_viatom_file` raises `AttributeError` (its filename
expression calls `strftime` on the record tuple `data[0][0]`), so no file with
the claimed name is written. -/
theorem prepare_viatom_binary_data_record_size_counterexample :
    (prepare_viatom_binary_data
        [ViatomRecord.mk (DateTimeFields.mk 2023 1 2 3 4 5) 95 60]).map List.length =
      some 45 ∧
    (45 : Nat) ≠ 40 + 8 * 1 ∧
    create_viatom_file [[ViatomRecord.mk (DateTimeFields.mk 2023 1 2 3 4 5) 95 60]] =
      .err (.attributeError "tuple object has no attribute strftime") := by
  refine ⟨by decide, by decide, by decide⟩

/-- C7 as amended: every byte string produced by `prepare_viatom_binary_data`
is the fixed 40-byte header (2-byte magic, little-endian 16-bit year, 5 date
bytes, 32-bit file size `5 * n + 40`, 16-bit duration `4 * n`, 25 zero bytes)
followed by one **5-byte** record `[SpO2][BPM][0, 0, 0]` per sample pair, so
it holds at most 4095 records only because the chunker caps sessions; and
`create_viatom_file` never emits a file at all: on any non-empty chunk list
its first iteration raises (`RuntimeError` for an oversized first chunk,
otherwise `IndexError`/`AttributeError` from the filename expression
`data[0][0].strftime(...)`). -/
theorem viatom_binary_layout_amended (r0 : ViatomRecord) (rest : List ViatomRecord)
    (hyear : r0.time.year < 65536) (hmo : r0.time.month < 256)
    (hda : r0.time.day < 256) (hho : r0.time.hour < 256)
    (hmi : r0.time.minute < 256) (hse : r0.time.second < 256)
    (hvals : ∀ r ∈ r0 :: rest, r.spo2 < 256 ∧ r.bpm < 256)
    (hsize : (r0 :: rest).length * 5 + 40 < 4294967296)
    (hdur : (r0 :: rest).length * 4 < 65536) :
    prepare_viatom_binary_data (r0 :: rest) =
      some (viatom_file_per_spec r0.time (r0 :: rest)) ∧
    (viatom_file_per_spec r0.time (r0 :: rest)).length = 40 + 5 * (r0 :: rest).length ∧
    ∀ (chunks : List (List ViatomRecord)), chunks ≠ [] →
      ∃ e, create_viatom_file chunks = .err e := by
  refine ⟨prepare_viatom_binary_data_spec r0 rest hyear hmo hda hho hmi hse hvals hsize hdur,
    viatom_file_per_spec_length r0.time (r0 :: rest), ?_⟩
  intro chunks hchunks
  match chunks with
  | [] => exact absurd rfl hchunks
  | datum :: restc =>
    by_cases hlen : 4095 < datum.length
    · exact ⟨.runtimeError "Data chunk too long", if_pos hlen⟩
    · match datum with
      | [] => exact ⟨.indexError "list index out of range", rfl⟩
      | hd :: tl =>
        exact ⟨.attributeError "tuple object has no attribute strftime", if_neg hlen⟩

theorem viatom_binary_layout_amended_witness :
    ((ViatomRecord.mk (DateTimeFields.mk 2023 1 2 3 4 5) 95 60).time.year < 65536 ∧
      (∀ r ∈ [ViatomRecord.mk (DateTimeFields.mk 2023 1 2 3 4 5) 95 60],
        r.spo2 < 256 ∧ r.bpm < 256)) ∧
    (prepare_viatom_binary_data [ViatomRecord.mk (DateTimeFields.mk 2023 1 2 3 4 5) 95 60] =
      some (viatom_file_per_spec (DateTimeFields.mk 2023 1 2 3 4 5)
        [ViatomRecord.mk (DateTimeFields.mk 2023 1 2 3 4 5) 95 60]) ∧
    (viatom_file_per_spec (DateTimeFields.mk 2023 1 2 3 4 5)
        [ViatomRecord.mk (DateTimeFields.mk 2023 1 2 3 4 5) 95 60]).length =
      40 + 5 * [ViatomRecord.mk (DateTimeFields.mk 2023 1 2 3 4 5) 95 60].length ∧
    ∀ (chunks : List (List ViatomRecord)), chunks ≠ [] →
      ∃ e, create_viatom_file chunks = .err e) :=
  ⟨⟨by decide, by decide⟩,
    viatom_binary_layout_amended (ViatomRecord.mk (DateTimeFields.mk 2023 1 2 3 4 5) 95 60)
      [] (by decide) (by decide) (by decide) (by decide) (by decide) (by decide)
      (by decide) (by decide) (by decide)⟩

/-- C9: the 32-bit size field at header offset 9 stores `5 * n + 40`, which is
exactly the length of the produced byte string: five bytes per record plus the
40-byte header. -/
theorem prepare_viatom_binary_data_size_field (r0 : ViatomRecord)
    (rest : List ViatomRecord)
    (hyear : r0.time.year < 65536) (hmo : r0.time.month < 256)
    (hda : r0.time.day < 256) (hho : r0.time.hour < 256)
    (hmi : r0.time.minute < 256) (hse : r0.time.second < 256)
    (hvals : ∀ r ∈ r0 :: rest, r.spo2 < 256 ∧ r.bpm < 256)
    (hsize : (r0 :: rest).length * 5 + 40 < 4294967296)
    (hdur : (r0 :: rest).length * 4 < 65536) :
    ∃ bs, prepare_viatom_binary_data (r0 :: rest) = some bs ∧
      bs.length = (r0 :: rest).length * 5 + 40 ∧
      ((bs.drop 9).take 4).foldr (fun byte acc => byte + 256 * acc) 0 =
        (r0 :: rest).length * 5 + 40 := by
  refine ⟨viatom_file_per_spec r0.time (r0 :: rest),
    prepare_viatom_binary_data_spec r0 rest hyear hmo hda hho hmi hse hvals hsize hdur,
    ?_, ?_⟩
  · rw [viatom_file_per_spec_length]; ring
  · have hexp : ((viatom_file_per_spec r0.time (r0 :: rest)).drop 9).take 4 =
        [((r0 :: rest).length * 5 + 40) % 256,
          ((r0 :: rest).length * 5 + 40) / 256 % 256,
          ((r0 :: rest).length * 5 + 40) / 65536 % 256,
          ((r0 :: rest).length * 5 + 40) / 16777216 % 256] := by
      simp [viatom_file_per_spec]
    rw [hexp]
    simp only [List.foldr]
    generalize (r0 :: rest).length * 5 + 40 = s at hsize ⊢
    omega

theorem prepare_viatom_binary_data_size_field_witness :
    ((∀ r ∈ [ViatomRecord.mk (DateTimeFields.mk 2023 1 2 3 4 5) 95 60],
        r.spo2 < 256 ∧ r.bpm < 256) ∧
      [ViatomRecord.mk (DateTimeFields.mk 2023 1 2 3 4 5) 95 60].length * 5 + 40 <
        4294967296) ∧
    ∃ bs,
      prepare_viatom_binary_data [ViatomRecord.mk (DateTimeFields.mk 2023 1 2 3 4 5) 95 60] =
        some bs ∧
      bs.length = [ViatomRecord.mk (DateTimeFields.mk 2023 1 2 3 4 5) 95 60].length * 5 + 40 ∧
      ((bs.drop 9).take 4).foldr (fun byte acc => byte + 256 * acc) 0 =
        [ViatomRecord.mk (DateTimeFields.mk 2023 1 2 3 4 5) 95 60].length * 5 + 40 :=
  ⟨⟨by decide, by decide⟩,
    prepare_viatom_binary_data_size_field
      (ViatomRecord.mk (DateTimeFields.mk 2023 1 2 3 4 5) 95 60) []
      (by decide) (by decide) (by decide) (by decide) (by decide) (by decide)
      (by decide) (by decide) (by decide)⟩

/-!
### `FitbitExtractor.get_nested_value` and `FitbitExtractor.is_valid_sleep_entry`

Python values reachable in a parsed record are modelled by `PyVal`.
`get_nested_value` walks the key path with `data = data[key]` inside
`try ... except (KeyError, TypeError): data` — the `except` body is the
bare no-op expression `data`, so a failed step leaves `data` unchanged — and
finally returns `data.keys()` when the reached value is a dict.  A key path
given as a plain string without a dot is *iterated character by character*
(Python iterates strings), and a key path given as a list containing `"."`
hits `key_path.split(".")`, an `AttributeError`.

`is_valid_sleep_entry` then evaluates
`get_nested_value(entry, field) not in entry`: dict membership hashes the
left operand, so a `dict_keys`/`dict`/`list` result raises
`TypeError: unhashable type`.  When every required field passes, the method
calls `is_valid_date(timestamp=..., ...)`, but `is_valid_date` has no
`timestamp` parameter, so that call raises `TypeError` as well (after
`entry[...]` may have raised `KeyError`).
-/

/-- A Python value inside a parsed record. -/
inductive PyVal where
  | int (n : Int)
  | str (s : String)
  | dict (entries : List (String × PyVal))
  | list (elems : List PyVal)
  | keysView (ks : List String)
  deriving Repr

/-- A `DictNotation` key path: `list[str] | str`. -/
inductive DictNotation where
  | str (s : String)
  | list (ks : List String)
  deriving DecidableEq, Repr

/-- First-match lookup in a dict's entry list. -/
def dictLookup : List (String × PyVal) → String → Option PyVal
  | [], _ => none
  | (k, v) :: rest, key => if k = key then some v else dictLookup rest key

/-- One iteration of the key-path loop: `data[key]` with `KeyError` and
`TypeError` swallowed, leaving `data` unchanged. -/
def getNestedStep (data : PyVal) (key : String) : PyVal :=
  match data with
  | .dict entries =>
    match dictLookup entries key with
    | some v => v
    | none => data
  | _ => data

/-- The whole key-path loop. -/
def getNestedFold (data : PyVal) : List String → PyVal
  | [] => data
  | k :: ks => getNestedFold (getNestedStep data k) ks

/-- `return data.keys() if isinstance(data, dict) else data`. -/
def getNestedFinalize (v : PyVal) : PyVal :=
  match v with
  | .dict entries => .keysView (entries.map Prod.fst)
  | _ => v

/-- `"." in s` for a string: substring test for the single character. -/
def containsChar (c : Char) : List Char → Bool
  | [] => false
  | a :: rest => a = c || containsChar c rest

/-- `s.split(".")` on the character list, accumulating the current piece. -/
def splitOnCharAux (c : Char) : List Char → List Char → List String
  | [], acc => [String.mk acc.reverse]
  | a :: rest, acc =>
    if a = c then String.mk acc.reverse :: splitOnCharAux c rest []
    else splitOnCharAux c rest (a :: acc)

/-- `FitbitExtractor.get_nested_value`.  A dotted string is split on the dots;
an undotted string is iterated character by character (`for key in key_path`
over a `str`); a list key path containing `"."` reaches
`key_path.split(".")`, which lists do not have. -/
def get_nested_value (data : PyVal) (key_path : DictNotation) : PyResult PyVal :=
  match key_path with
  | .list ks =>
    if "." ∈ ks then .err (.attributeError "list object has no attribute split")
    else .ok (getNestedFinalize (getNestedFold data ks))
  | .str s =>
    let ks :=
      if containsChar '.' s.data then splitOnCharAux '.' s.data []
      else s.data.map (fun c => String.mk [c])
    .ok (getNestedFinalize (getNestedFold data ks))

/-- `x not in entry` for a dict with string keys: hashing the left operand
raises `TypeError` when it is unhashable. -/
def pyNotInDict (x : PyVal) (entries : List (String × PyVal)) : PyResult Bool :=
  match x with
  | .int _ => .ok true
  | .str s => .ok (dictLookup entries s).isNone
  | .dict _ => .err (.typeError "unhashable type: dict")
  | .list _ => .err (.typeError "unhashable type: list")
  | .keysView _ => .err (.typeError "unhashable type: dict_keys")

/-- The short-circuiting
`any(get_nested_value(entry, field) not in entry for field in required_fields)`. -/
def anyFieldMissing (entry : List (String × PyVal)) :
    List DictNotation → PyResult Bool
  | [] => .ok false
  | f :: fs =>
    match get_nested_value (.dict entry) f with
    | .err e => .err e
    | .ok v =>
      match pyNotInDict v entry with
      | .err e => .err e
      | .ok true => .ok true
      | .ok false => anyFieldMissing entry fs

/-- `FitbitExtractor.is_valid_sleep_entry`: when the required-fields check
does not return `False`, the source always raises, because its
`is_valid_date(timestamp=...)` call passes a keyword argument that
`is_valid_date` does not accept (after `entry[config.vitals["timestamp"]]`
may already have raised `KeyError`). -/
def is_valid_sleep_entry (required_fields : List DictNotation)
    (timestampKey : String) (entry : List (String × PyVal)) : PyResult Bool :=
  match anyFieldMissing entry required_fields with
  | .err e => .err e
  | .ok true => .ok false
  | .ok false =>
    match dictLookup entry timestampKey with
    | none => .err (.keyError timestampKey)
    | some _ =>
      .err (.typeError "is_valid_date got an unexpected keyword argument timestamp")

/-- C8 (code bug): the lookup itself indeed never raises on a string key
path, but a missing path makes it return the record's `dict_keys`, and the
Extractor's membership test then raises `TypeError: unhashable type` instead
of skipping the record.  Concretely, for the record
`{"dateOfSleep": "2023-01-01"}` with required field `"data"`. -/
theorem is_valid_sleep_entry_unhashable_eval :
    (∀ (data : PyVal) (s : String), ∃ v, get_nested_value data (.str s) = .ok v) ∧
    get_nested_value (.dict [("dateOfSleep", .str "2023-01-01")]) (.str "data") =
      .ok (.keysView ["dateOfSleep"]) ∧
    is_valid_sleep_entry [.str "data"] "dateOfSleep"
        [("dateOfSleep", .str "2023-01-01")] =
      .err (.typeError "unhashable type: dict_keys") := by
  refine ⟨fun data s => ⟨getNestedFinalize (getNestedFold data
    (if containsChar '.' s.data then splitOnCharAux '.' s.data []
      else s.data.map (fun c => String.mk [c]))), rfl⟩,
    rfl, rfl⟩

/-!
### `helpers.process_date_arg`

The regex `(\d{4})-(\d{1,2})-(\d{1,2})` is matched with `re.match`, i.e.
anchored at the start with arbitrary trailing text allowed; each `\d{1,2}`
is greedy with backtracking against the following `-`.  `datetime.date`
raises `ValueError` for an out-of-calendar triple (uncaught in the source).
The parsed date must satisfy `today >= dateobj >= date(2010, 1, 1)`, and the
result is looked up in the adjustments dict: `start` subtracts one day,
`end` adds one day, `file` returns the date unchanged; any other argtype is
a `KeyError`. -/

/-- A Python `datetime.date`. -/
structure PyDate where
  year : Nat
  month : Nat
  day : Nat
  deriving DecidableEq, Repr

def isLeapYear (y : Nat) : Bool :=
  (y % 4 = 0 && y % 100 ≠ 0) || y % 400 = 0

def daysInMonth (y m : Nat) : Nat :=
  if m = 2 then (if isLeapYear y then 29 else 28)
  else if m = 4 ∨ m = 6 ∨ m = 9 ∨ m = 11 then 30
  else 31

/-- `datetime.date`'s validity check (`MINYEAR = 1`, `MAXYEAR = 9999`). -/
def dateValid (d : PyDate) : Bool :=
  1 ≤ d.year && d.year ≤ 9999 && 1 ≤ d.month && d.month ≤ 12 &&
    1 ≤ d.day && d.day ≤ daysInMonth d.year d.month

/-- `d + timedelta(days=1)`. -/
def nextDay (d : PyDate) : PyDate :=
  if d.day < daysInMonth d.year d.month then PyDate.mk d.year d.month (d.day + 1)
  else if d.month < 12 then PyDate.mk d.year (d.month + 1) 1
  else PyDate.mk (d.year + 1) 1 1

/-- `d - timedelta(days=1)`. -/
def prevDay (d : PyDate) : PyDate :=
  if 1 < d.day then PyDate.mk d.year d.month (d.day - 1)
  else if 1 < d.month then PyDate.mk d.year (d.month - 1) (daysInMonth d.year (d.month - 1))
  else PyDate.mk (d.year - 1) 12 31

/-- Lexicographic date comparison, as `datetime.date` ordering. -/
def dateLe (a b : PyDate) : Bool :=
  a.year < b.year || (a.year = b.year &&
    (a.month < b.month || (a.month = b.month && a.day ≤ b.day)))

def digitVal (c : Char) : Option Nat :=
  if c.isDigit then some (c.toNat - 48) else none

/-- `\d{1,2}-`: two digits when the third character is the dash, otherwise
one digit followed by the dash. -/
def matchOneTwoDigitsDash : List Char → Option (Nat × List Char)
  | a :: '-' :: rest =>
    match digitVal a with
    | some da => some (da, rest)
    | none => none
  | a :: b :: '-' :: rest =>
    match digitVal a, digitVal b with
    | some da, some db => some (da * 10 + db, rest)
    | _, _ => none
  | _ => none

/-- Trailing `\d{1,2}`: greedy, arbitrary text may follow. -/
def matchOneTwoDigitsEnd : List Char → Option Nat
  | [] => none
  | [a] => digitVal a
  | a :: b :: _ =>
    match digitVal a, digitVal b with
    | some da, some db => some (da * 10 + db)
    | some da, none => some da
    | none, _ => none

/-- `re.match(r"(\d{4})-(\d{1,2})-(\d{1,2})", datestring)`. -/
def matchDateArg (datestring : String) : Option (Nat × Nat × Nat) :=
  match datestring.data with
  | c1 :: c2 :: c3 :: c4 :: '-' :: rest =>
    match digitVal c1, digitVal c2, digitVal c3, digitVal c4 with
    | some d1, some d2, some d3, some d4 =>
      match matchOneTwoDigitsDash rest with
      | some (month, rest2) =>
        match matchOneTwoDigitsEnd rest2 with
        | some day => some (((d1 * 10 + d2) * 10 + d3) * 10 + d4, month, day)
        | none => none
      | none => none
    | _, _, _, _ => none
  | _ => none

/-- `helpers.process_date_arg`; `today` is `datetime.date.today()`. -/
def process_date_arg (datestring : String) (argtype : String) (today : PyDate) :
    PyResult PyDate :=
  match matchDateArg datestring with
  | none => .err (.argumentTypeError "invalid date argument, must match YYYY-M-D format")
  | some (y, m, d) =>
    if dateValid (PyDate.mk y m d) = false then
      .err (.valueError "day is out of range for month")
    else if ¬(dateLe (PyDate.mk 2010 1 1) (PyDate.mk y m d) ∧
        dateLe (PyDate.mk y m d) today) then
      .err (.argumentTypeError "date out of range")
    else if argtype = "start" then .ok (prevDay (PyDate.mk y m d))
    else if argtype = "end" then .ok (nextDay (PyDate.mk y m d))
    else if argtype = "file" then .ok (PyDate.mk y m d)
    else .err (.keyError argtype)

/-- C10: every accepted date string parses under the regex, lies between
2010-01-01 and today, and the returned date is the parsed date minus one day
for `start`, plus one day for `end`, and unchanged for `file` — the extraction
range is silently widened by one day on each side. -/
theorem process_date_arg_adjustment (datestring : String) (today r : PyDate) :
    (process_date_arg datestring "start" today = .ok r →
      ∃ y m d, matchDateArg datestring = some (y, m, d) ∧
        dateValid (PyDate.mk y m d) = true ∧
        dateLe (PyDate.mk 2010 1 1) (PyDate.mk y m d) = true ∧
        dateLe (PyDate.mk y m d) today = true ∧
        r = prevDay (PyDate.mk y m d)) ∧
    (process_date_arg datestring "end" today = .ok r →
      ∃ y m d, matchDateArg datestring = some (y, m, d) ∧
        r = nextDay (PyDate.mk y m d)) ∧
    (process_date_arg datestring "file" today = .ok r →
      ∃ y m d, matchDateArg datestring = some (y, m, d) ∧
        r = PyDate.mk y m d) := by
  cases hm : matchDateArg datestring with
  | none =>
    refine ⟨?_, ?_, ?_⟩ <;> intro h <;> simp [process_date_arg, hm] at h
  | some ymd =>
    obtain ⟨y, m, d⟩ := ymd
    by_cases hv : dateValid (PyDate.mk y m d) = false
    · refine ⟨?_, ?_, ?_⟩ <;> intro h <;> simp [process_date_arg, hm, hv] at h
    · by_cases hrange : dateLe (PyDate.mk 2010 1 1) (PyDate.mk y m d) ∧
          dateLe (PyDate.mk y m d) today
      · refine ⟨?_, ?_, ?_⟩ <;> intro h
        · simp [process_date_arg, hm, hv, hrange.1, hrange.2] at h
          subst h
          exact ⟨y, m, d, rfl, by simpa using hv, hrange.1, hrange.2, rfl⟩
        · simp [process_date_arg, hm, hv, hrange.1, hrange.2] at h
          subst h
          exact ⟨y, m, d, rfl, rfl⟩
        · simp [process_date_arg, hm, hv, hrange.1, hrange.2] at h
          subst h
          exact ⟨y, m, d, rfl, rfl⟩
      · refine ⟨?_, ?_, ?_⟩ <;> intro h <;>
          simp [process_date_arg, hm, hv, hrange] at h

theorem process_date_arg_adjustment_witness :
    process_date_arg "2020-03-10" "start" (PyDate.mk 2025 1 1) = .ok (PyDate.mk 2020 3 9) ∧
    ∃ y m d, matchDateArg "2020-03-10" = some (y, m, d) ∧
      dateValid (PyDate.mk y m d) = true ∧
      dateLe (PyDate.mk 2010 1 1) (PyDate.mk y m d) = true ∧
      dateLe (PyDate.mk y m d) (PyDate.mk 2025 1 1) = true ∧
      PyDate.mk 2020 3 9 = prevDay (PyDate.mk y m d) :=
  ⟨by decide,
    (process_date_arg_adjustment "2020-03-10" (PyDate.mk 2025 1 1)
      (PyDate.mk 2020 3 9)).1 (by decide)⟩

end Fitbit2Oscar
